import Mathlib

/-!
Verification development for cmake/pthread_clock_compat.h of the cuda-samples
repository.  The header forward-declares four clock-aware POSIX thread
synchronization operations behind an include guard and a C-linkage wrapper.

The development has two layers:
* a faithful abstract-syntax embedding of the header file itself, together
  with a small C-preprocessor model, for the declaration-level claims;
* a behavioral contract of the declared operations, modelled from the
  specification, since the implementations live in the host platform thread
  library and are not part of the repository.
-/

namespace PthreadClockCompat

/-! ## Abstract syntax of the header -/

/-- Base C types occurring in the header.  `cInt` is the built-in `int`;
the remaining types are owned by the platform headers. -/
inductive CBase
  | cInt
  | pthreadCondT
  | pthreadMutexT
  | pthreadRwlockT
  | clockidT
  | structTimespec
deriving DecidableEq

/-- A C type as written in the header: either a base type or a pointer to a
base type carrying `const` and `__restrict` qualifiers. -/
inductive CType
  | base (b : CBase)
  | ptr (isConst : Bool) (isRestrict : Bool) (pointee : CBase)
deriving DecidableEq

/-- A formal parameter of a function declaration. -/
structure Param where
  name : String
  type : CType
deriving DecidableEq

/-- A function prototype: name, return type, parameter list. -/
structure FunDecl where
  name : String
  ret : CType
  params : List Param
deriving DecidableEq

/-- C statements; present in the grammar so that the absence of control flow
in the header is a contentful statement about the embedded file. -/
inductive CStmt
  | exprStmt
  | seq (first second : CStmt)
  | ifElse (thenBranch elseBranch : CStmt)
  | whileLoop (body : CStmt)
  | returnStmt
deriving DecidableEq

/-- Top-level items a translation unit can contain after preprocessing.
The grammar includes definitions, type definitions and variable (state)
declarations so that their absence from the header is non-vacuous. -/
inductive CItem
  | includeDirective (file : String)
  | externCBegin
  | externCEnd
  | funDecl (d : FunDecl)
  | funDef (d : FunDecl) (body : CStmt)
  | typeDef (n : String)
  | varDecl (n : String) (t : CType)
deriving DecidableEq

/-- A preprocessor-level line of the header source. -/
inductive PPLine
  | ifndefLine (m : String)
  | defineLine (m : String)
  | ifdefCplusplus
  | endifLine
  | item (it : CItem)
deriving DecidableEq

/-! ## The four declarations, transcribed from the source -/

/-- Lines 11-14 of the header. -/
def pthread_cond_clockwait_decl : FunDecl :=
  { name := "pthread_cond_clockwait"
    ret := .base .cInt
    params :=
      [ ⟨"cond", .ptr false true .pthreadCondT⟩,
        ⟨"mutex", .ptr false true .pthreadMutexT⟩,
        ⟨"clock_id", .base .clockidT⟩,
        ⟨"abstime", .ptr true true .structTimespec⟩ ] }

/-- Lines 16-18 of the header. -/
def pthread_mutex_clocklock_decl : FunDecl :=
  { name := "pthread_mutex_clocklock"
    ret := .base .cInt
    params :=
      [ ⟨"mutex", .ptr false true .pthreadMutexT⟩,
        ⟨"clock_id", .base .clockidT⟩,
        ⟨"abstime", .ptr true true .structTimespec⟩ ] }

/-- Lines 20-22 of the header. -/
def pthread_rwlock_clockrdlock_decl : FunDecl :=
  { name := "pthread_rwlock_clockrdlock"
    ret := .base .cInt
    params :=
      [ ⟨"rwlock", .ptr false true .pthreadRwlockT⟩,
        ⟨"clock_id", .base .clockidT⟩,
        ⟨"abstime", .ptr true true .structTimespec⟩ ] }

/-- Lines 24-26 of the header. -/
def pthread_rwlock_clockwrlock_decl : FunDecl :=
  { name := "pthread_rwlock_clockwrlock"
    ret := .base .cInt
    params :=
      [ ⟨"rwlock", .ptr false true .pthreadRwlockT⟩,
        ⟨"clock_id", .base .clockidT⟩,
        ⟨"abstime", .ptr true true .structTimespec⟩ ] }

/-- The include-guard macro of the header (lines 1, 2 and 32). -/
def guardMacro : String := "CUDA_SAMPLES_PTHREAD_CLOCK_COMPAT_H_"

/-- The whole file cmake/pthread_clock_compat.h, line by line. -/
def pthread_clock_compat_h : List PPLine :=
  [ .ifndefLine guardMacro,
    .defineLine guardMacro,
    .item (.includeDirective "pthread.h"),
    .item (.includeDirective "time.h"),
    .ifdefCplusplus,
    .item .externCBegin,
    .endifLine,
    .item (.funDecl pthread_cond_clockwait_decl),
    .item (.funDecl pthread_mutex_clocklock_decl),
    .item (.funDecl pthread_rwlock_clockrdlock_decl),
    .item (.funDecl pthread_rwlock_clockwrlock_decl),
    .ifdefCplusplus,
    .item .externCEnd,
    .endifLine,
    .endifLine ]

/-! ## Preprocessor model -/

/-- Run the preprocessor over a list of lines.  `cpp` states whether
`__cplusplus` is defined, `defs` is the set of defined macros, `skip` is the
depth of enclosing false conditionals.  Returns the emitted items and the
final macro set. -/
def ppRun (cpp : Bool) : List PPLine → List String → Nat → List CItem × List String
  | [], defs, _ => ([], defs)
  | l :: ls, defs, skip =>
    if skip = 0 then
      match l with
      | .ifndefLine m => if m ∈ defs then ppRun cpp ls defs 1 else ppRun cpp ls defs 0
      | .defineLine m => ppRun cpp ls (m :: defs) 0
      | .ifdefCplusplus => if cpp then ppRun cpp ls defs 0 else ppRun cpp ls defs 1
      | .endifLine => ppRun cpp ls defs 0
      | .item it =>
          let r := ppRun cpp ls defs 0
          (it :: r.1, r.2)
    else
      match l with
      | .ifndefLine _ => ppRun cpp ls defs (skip + 1)
      | .ifdefCplusplus => ppRun cpp ls defs (skip + 1)
      | .endifLine => ppRun cpp ls defs (skip - 1)
      | _ => ppRun cpp ls defs skip

/-- One inclusion of the header in a translation unit whose macro set is
`defs`. -/
def includeOnce (cpp : Bool) (defs : List String) : List CItem × List String :=
  ppRun cpp pthread_clock_compat_h defs 0

/-- `n` successive inclusions of the header; outputs are concatenated and the
macro set is threaded through. -/
def includeN (cpp : Bool) : Nat → List String → List CItem × List String
  | 0, defs => ([], defs)
  | n + 1, defs =>
    let r1 := includeOnce cpp defs
    let r2 := includeN cpp n r1.2
    (r1.1 ++ r2.1, r2.2)

/-- The items the header contributes to a fresh translation unit. -/
def headerItems (cpp : Bool) : List CItem := (includeOnce cpp []).1

/-! ## Observations on item lists -/

/-- The function prototypes among a list of items. -/
def declaredFuns (items : List CItem) : List FunDecl :=
  items.filterMap fun it =>
    match it with
    | .funDecl d => some d
    | _ => none

/-- The function definitions among a list of items. -/
def definedFuns (items : List CItem) : List FunDecl :=
  items.filterMap fun it =>
    match it with
    | .funDef d _ => some d
    | _ => none

/-- The type definitions among a list of items. -/
def typeDefs (items : List CItem) : List String :=
  items.filterMap fun it =>
    match it with
    | .typeDef n => some n
    | _ => none

/-- The variable (state) declarations among a list of items. -/
def varDecls (items : List CItem) : List String :=
  items.filterMap fun it =>
    match it with
    | .varDecl n _ => some n
    | _ => none

/-- The statement bodies contained in a list of items.  Empty exactly when
the items carry no control flow of their own. -/
def allStmts (items : List CItem) : List CStmt :=
  items.filterMap fun it =>
    match it with
    | .funDef _ body => some body
    | _ => none

/-- The include directives among a list of items. -/
def includedFiles (items : List CItem) : List String :=
  items.filterMap fun it =>
    match it with
    | .includeDirective f => some f
    | _ => none

/-- Tag each declared function with whether it lies inside an
`extern "C" { ... }` region, scanning items left to right. -/
def linkageTag : List CItem → Bool → List (FunDecl × Bool)
  | [], _ => []
  | .externCBegin :: rest, _ => linkageTag rest true
  | .externCEnd :: rest, _ => linkageTag rest false
  | .funDecl d :: rest, inC => (d, inC) :: linkageTag rest inC
  | _ :: rest, inC => linkageTag rest inC

/-- The names of the four declared operations, in file order. -/
def clockOpNames : List String :=
  [ "pthread_cond_clockwait",
    "pthread_mutex_clocklock",
    "pthread_rwlock_clockrdlock",
    "pthread_rwlock_clockwrlock" ]

/-- The types of the last two parameters of a declaration. -/
def lastTwoParamTypes (d : FunDecl) : List CType :=
  (d.params.drop (d.params.length - 2)).map Param.type

/-- The base type underlying a C type. -/
def baseOf : CType → CBase
  | .base b => b
  | .ptr _ _ b => b

/-- All base types referenced by a declaration (return type and parameters). -/
def referencedBases (d : FunDecl) : List CBase :=
  baseOf d.ret :: d.params.map fun p => baseOf p.type

/-- Modelled from the spec: the referenced synchronization-primitive handles,
clock identifiers and absolute-time specifications are owned and defined by
the host platform headers, not by this artifact.  POSIX pthread.h defines the
three primitive handle types and POSIX time.h defines clockid_t and
struct timespec. -/
def headerProvidedTypes : String → List CBase
  | "pthread.h" => [.pthreadCondT, .pthreadMutexT, .pthreadRwlockT]
  | "time.h" => [.clockidT, .structTimespec]
  | _ => []

/-- The base types made available by the include directives of an item list. -/
def providedBases (items : List CItem) : List CBase :=
  (includedFiles items).flatMap headerProvidedTypes

/-- Whether every pointer parameter of a declaration is restrict-qualified. -/
def pointerParamsRestrict (d : FunDecl) : Bool :=
  d.params.all fun p =>
    match p.type with
    | .ptr _ r _ => r
    | .base _ => true

/-- Whether a declaration has at least one pointer parameter. -/
def hasPointerParam (d : FunDecl) : Bool :=
  d.params.any fun p =>
    match p.type with
    | .ptr _ _ _ => true
    | .base _ => false

/-! ## Behavioral contract, modelled from the spec

The implementations of the four declared operations live in the host
platform thread library and are not part of the repository; the spec
describes their contract (sections 5-7): a blocking call that suspends the
invoking thread until the underlying condition is satisfied or the absolute
deadline, measured against the selected clock, elapses; zero on success, a
timeout-specific nonzero code on timeout, other nonzero platform codes on
error. -/

/-- An absolute time specification, mirroring struct timespec. -/
structure Timespec where
  tv_sec : Int
  tv_nsec : Int
deriving DecidableEq

/-- The instant a timespec denotes, in nanoseconds on its clock. -/
def Timespec.toNs (t : Timespec) : Int :=
  t.tv_sec * 1000000000 + t.tv_nsec

/-- Modelled from the spec: the timeout-specific nonzero platform status
code returned when the deadline elapses before the condition or lock is
obtained. -/
def ETIMEDOUT : Nat := 110

/-- Modelled from the spec: the clock identifier standard POSIX timed waits
measure their deadline against. -/
def CLOCK_REALTIME : Nat := 0

/-- Modelled from the spec: the environment a single call observes.
`clockNow c` is the current reading of clock `c` in nanoseconds;
`satisfiedAt c` is the instant, as measured on clock `c`, at which the
underlying condition (signal delivered, lock available) is satisfied, with
`none` meaning never; `errCode` is a platform-detected usage error
(invalid argument, deadlock, ownership violation), `none` for a valid call. -/
structure WaitWorld where
  clockNow : Nat → Int
  satisfiedAt : Nat → Option Int
  errCode : Option Nat

/-- A world is well formed when platform error codes are nonzero. -/
def WaitWorld.WF (w : WaitWorld) : Prop :=
  ∀ c, w.errCode = some c → 0 < c

/-- The observable outcome of one call: the returned int status and the
reading of the selected clock at the moment the call returns. -/
structure WaitResult where
  status : Nat
  returnClockTime : Int
deriving DecidableEq

/-- Modelled from the spec: the shared contract of the four clock-bounded
wait operations.  A usage error returns the platform code at once.
Otherwise the call can only succeed at an instant no earlier than the
current clock reading and no later than the deadline; when the condition is
satisfied at such an instant the call returns zero there, and when it is
not the call returns the timeout code once the deadline has elapsed,
without blocking past the deadline. -/
def clockWaitModel (w : WaitWorld) (clock_id : Nat) (abstime : Timespec) : WaitResult :=
  let d := abstime.toNs
  let now := w.clockNow clock_id
  match w.errCode with
  | some c => ⟨c, now⟩
  | none =>
    match w.satisfiedAt clock_id with
    | some t => if max t now ≤ d then ⟨0, max t now⟩ else ⟨ETIMEDOUT, max now d⟩
    | none => ⟨ETIMEDOUT, max now d⟩

/-- Modelled from the spec: pthread_cond_clockwait waits on a condition
variable against a mutex, bounded by a clock and an absolute time. -/
def pthread_cond_clockwait_sem (w : WaitWorld) (clock_id : Nat) (abstime : Timespec) : WaitResult :=
  clockWaitModel w clock_id abstime

/-- Modelled from the spec: pthread_mutex_clocklock locks a mutex, bounded
by a clock and an absolute time. -/
def pthread_mutex_clocklock_sem (w : WaitWorld) (clock_id : Nat) (abstime : Timespec) : WaitResult :=
  clockWaitModel w clock_id abstime

/-- Modelled from the spec: pthread_rwlock_clockrdlock acquires a read lock,
bounded by a clock and an absolute time. -/
def pthread_rwlock_clockrdlock_sem (w : WaitWorld) (clock_id : Nat) (abstime : Timespec) : WaitResult :=
  clockWaitModel w clock_id abstime

/-- Modelled from the spec: pthread_rwlock_clockwrlock acquires a write
lock, bounded by a clock and an absolute time. -/
def pthread_rwlock_clockwrlock_sem (w : WaitWorld) (clock_id : Nat) (abstime : Timespec) : WaitResult :=
  clockWaitModel w clock_id abstime

/-- The four modelled operations, in the order they are declared. -/
def clockOpSems : List (WaitWorld → Nat → Timespec → WaitResult) :=
  [ pthread_cond_clockwait_sem,
    pthread_mutex_clocklock_sem,
    pthread_rwlock_clockrdlock_sem,
    pthread_rwlock_clockwrlock_sem ]

/-- The condition can be satisfied during the wait window: it holds at some
instant between the call and the deadline, as measured on the selected
clock. -/
def satisfiedWithin (w : WaitWorld) (clock_id : Nat) (d : Int) : Prop :=
  ∃ t, w.satisfiedAt clock_id = some t ∧ max t (w.clockNow clock_id) ≤ d

/-- Whichever of the four operations is called, its modelled semantics is
the shared contract. -/
theorem clockOpSems_eq_model (op : WaitWorld → Nat → Timespec → WaitResult)
    (hop : op ∈ clockOpSems) : op = clockWaitModel := by
  simp only [clockOpSems, List.mem_cons, List.not_mem_nil, or_false] at hop
  rcases hop with h | h | h | h <;> subst h <;> rfl

/-- Modelled from the spec (section 6 re-architecture view): a refinement
reference written from the spec words for standard POSIX timed waits, which
measure their deadline against CLOCK_REALTIME and admit no clock selection;
to be compared with the clock-parameterised contract. -/
def posix_timedwait_sem (w : WaitWorld) (abstime : Timespec) : WaitResult :=
  let d := abstime.toNs
  let now := w.clockNow CLOCK_REALTIME
  match w.errCode with
  | some c => ⟨c, now⟩
  | none =>
    match w.satisfiedAt CLOCK_REALTIME with
    | some t => if max t now ≤ d then ⟨0, max t now⟩ else ⟨ETIMEDOUT, max now d⟩
    | none => ⟨ETIMEDOUT, max now d⟩

/-- Modelled from the spec: symbol resolution for a call.  The artifact only
makes symbols visible; a translation unit that defined one of the functions
itself would interpose its own status, otherwise the caller receives the
status produced by the platform thread library. -/
def callerStatus (items : List CItem) (interposed platform : String → Nat) (n : String) : Nat :=
  if (definedFuns items).any (fun d => d.name = n) then interposed n else platform n

/-! ## Declaration-level claims -/

/-- C1: whether compiled as C or C++, the header declares exactly the four
functions pthread_cond_clockwait, pthread_mutex_clocklock,
pthread_rwlock_clockrdlock and pthread_rwlock_clockwrlock, each returning
int and each taking a clockid_t clock selector and a const struct timespec
pointer absolute deadline as its final two parameters; it contributes no
function definitions, no state, no data-structure definitions and no
control flow of its own. -/
theorem C1_declarations_only :
    ∀ cpp : Bool,
      (declaredFuns (headerItems cpp)).map FunDecl.name = clockOpNames ∧
      (declaredFuns (headerItems cpp)).length = 4 ∧
      (∀ d ∈ declaredFuns (headerItems cpp),
        d.ret = .base .cInt ∧
        lastTwoParamTypes d = [.base .clockidT, .ptr true true .structTimespec]) ∧
      definedFuns (headerItems cpp) = [] ∧
      varDecls (headerItems cpp) = [] ∧
      typeDefs (headerItems cpp) = [] ∧
      allStmts (headerItems cpp) = [] := by
  intro cpp
  cases cpp <;> decide

/-- C7: every base type referenced by the four declarations other than the
built-in int is provided by the platform headers the file includes
(pthread.h and time.h), and the file itself defines no types and no other
entities. -/
theorem C7_types_platform_owned :
    ∀ cpp : Bool,
      includedFiles (headerItems cpp) = ["pthread.h", "time.h"] ∧
      providedBases (headerItems cpp) =
        [.pthreadCondT, .pthreadMutexT, .pthreadRwlockT, .clockidT, .structTimespec] ∧
      (∀ d ∈ declaredFuns (headerItems cpp), ∀ b ∈ referencedBases d,
        b = .cInt ∨ b ∈ providedBases (headerItems cpp)) ∧
      typeDefs (headerItems cpp) = [] ∧
      definedFuns (headerItems cpp) = [] ∧
      varDecls (headerItems cpp) = [] := by
  intro cpp
  cases cpp <;> decide

/-- C8: compiled as C++ the four declarations all lie inside the
extern-C region and so carry C linkage; compiled as C the extern-C wrapper
is absent and the same four declarations are still emitted. -/
theorem C8_extern_c_linkage :
    (∀ p ∈ linkageTag (headerItems true) false, p.2 = true) ∧
    CItem.externCBegin ∈ headerItems true ∧
    CItem.externCEnd ∈ headerItems true ∧
    CItem.externCBegin ∉ headerItems false ∧
    CItem.externCEnd ∉ headerItems false ∧
    (linkageTag (headerItems true) false).map Prod.fst =
      (linkageTag (headerItems false) false).map Prod.fst ∧
    (declaredFuns (headerItems false)).map FunDecl.name = clockOpNames := by
  decide

/-- C10: in both compilation modes, every pointer parameter of every
declared function is restrict-qualified (and each declaration does have
pointer parameters), which is what imposes the no-aliasing precondition on
the pointer arguments of every call. -/
theorem C10_restrict_pointers :
    ∀ cpp : Bool, ∀ d ∈ declaredFuns (headerItems cpp),
      pointerParamsRestrict d = true ∧ hasPointerParam d = true := by
  intro cpp
  cases cpp <;> decide

/-- Witness for C10 at the condition-variable declaration under C++. -/
theorem C10_restrict_pointers_witness :
    pointerParamsRestrict pthread_cond_clockwait_decl = true ∧
    hasPointerParam pthread_cond_clockwait_decl = true :=
  C10_restrict_pointers true pthread_cond_clockwait_decl (by decide)

/-! ## Include-guard idempotence -/

/-- When the guard macro is already defined, one more inclusion emits
nothing and leaves the macro set unchanged. -/
theorem includeOnce_guarded (cpp : Bool) (defs : List String)
    (h : guardMacro ∈ defs) : includeOnce cpp defs = ([], defs) := by
  simp [includeOnce, pthread_clock_compat_h, ppRun, h]

/-- The guard macro is defined after any inclusion of the header. -/
theorem guard_mem_after_includeOnce (cpp : Bool) (defs : List String) :
    guardMacro ∈ (includeOnce cpp defs).2 := by
  by_cases h : guardMacro ∈ defs
  · rw [includeOnce_guarded cpp defs h]
    exact h
  · cases cpp <;> simp [includeOnce, pthread_clock_compat_h, ppRun, h]

/-- When the guard macro is already defined, any number of further
inclusions emits nothing and leaves the macro set unchanged. -/
theorem includeN_guarded (cpp : Bool) (n : Nat) (defs : List String)
    (h : guardMacro ∈ defs) : includeN cpp n defs = ([], defs) := by
  induction n with
  | zero => rfl
  | succ m ih => simp [includeN, includeOnce_guarded cpp defs h, ih]

/-- C9: inclusion of the header is idempotent: in any translation unit and
either compilation mode, including the header any positive number of times
emits exactly the items of a single inclusion, because the include guard
suppresses re-processing of the body. -/
theorem C9_inclusion_idempotent (cpp : Bool) (defs : List String) (n : Nat)
    (h : 0 < n) : includeN cpp n defs = includeOnce cpp defs := by
  obtain ⟨m, rfl⟩ : ∃ m, n = m + 1 := ⟨n - 1, by omega⟩
  have hg := guard_mem_after_includeOnce cpp defs
  simp [includeN, includeN_guarded cpp m _ hg]

/-- Witness for C9: three inclusions into a fresh C++ translation unit give
the items of one inclusion. -/
theorem C9_inclusion_idempotent_witness :
    includeN true 3 [] = includeOnce true [] :=
  C9_inclusion_idempotent true [] 3 (by decide)

/-! ## Behavioral claims against the spec-modelled contract -/

/-- C2: for each of the four operations, a call returns zero exactly when no
usage error occurred and the condition was satisfiable within the deadline;
when the deadline elapses first the call returns the timeout-specific
nonzero code, and a platform-detected error returns that platform code,
also nonzero. -/
theorem C2_status_zero_or_nonzero (op : WaitWorld → Nat → Timespec → WaitResult)
    (hop : op ∈ clockOpSems) (w : WaitWorld) (hw : w.WF)
    (clock_id : Nat) (abstime : Timespec) :
    ((op w clock_id abstime).status = 0 ↔
      w.errCode = none ∧ satisfiedWithin w clock_id abstime.toNs) ∧
    (w.errCode = none → ¬ satisfiedWithin w clock_id abstime.toNs →
      (op w clock_id abstime).status = ETIMEDOUT ∧
      (op w clock_id abstime).status ≠ 0) ∧
    (∀ c, w.errCode = some c →
      (op w clock_id abstime).status = c ∧ (op w clock_id abstime).status ≠ 0) := by
  rw [clockOpSems_eq_model op hop]
  rcases herr : w.errCode with _ | c
  · refine ⟨?_, ?_, ?_⟩
    · rcases hs : w.satisfiedAt clock_id with _ | t
      · simp [clockWaitModel, herr, hs, satisfiedWithin, ETIMEDOUT]
      · by_cases hle : max t (w.clockNow clock_id) ≤ abstime.toNs
        · simp [clockWaitModel, herr, hs, hle, satisfiedWithin]
          exact max_le_iff.mp hle
        · simp [clockWaitModel, herr, hs, hle, satisfiedWithin, ETIMEDOUT]
          intro ht
          by_contra hlt
          exact hle (max_le ht (not_lt.mp hlt))
    · intro _ hns
      rcases hs : w.satisfiedAt clock_id with _ | t
      · simp [clockWaitModel, herr, hs, ETIMEDOUT]
      · have hle : ¬ max t (w.clockNow clock_id) ≤ abstime.toNs :=
          fun hle => hns ⟨t, hs, hle⟩
        simp [clockWaitModel, herr, hs, hle, ETIMEDOUT]
    · intro c hc
      exact Option.noConfusion hc
  · have hc := hw c herr
    refine ⟨?_, ?_, ?_⟩
    · constructor
      · intro h0
        simp [clockWaitModel, herr] at h0
        omega
      · rintro ⟨h0, -⟩
        exact Option.noConfusion h0
    · intro h0
      exact Option.noConfusion h0
    · intro c2 hc2
      injection hc2 with hc2
      subst hc2
      simp [clockWaitModel, herr]
      omega

/-- Witness for C2: a call whose condition is satisfied at instant 5, well
before the deadline of 10 nanoseconds, returns zero. -/
theorem C2_status_zero_or_nonzero_witness :
    (pthread_cond_clockwait_sem ⟨fun _ => 0, fun _ => some 5, none⟩ 1 ⟨0, 10⟩).status = 0 :=
  (C2_status_zero_or_nonzero pthread_cond_clockwait_sem
      (by simp [clockOpSems])
      ⟨fun _ => 0, fun _ => some 5, none⟩
      (fun c hc => Option.noConfusion hc) 1 ⟨0, 10⟩).1.mpr
    ⟨rfl, 5, rfl, by norm_num [Timespec.toNs]⟩

/-- C3: a valid call whose absolute deadline is already in the past on the
selected clock returns the timeout status at once: the selected clock still
reads the call-time instant when the call returns, so the call did not
block at all, let alone indefinitely. -/
theorem C3_past_deadline_times_out (op : WaitWorld → Nat → Timespec → WaitResult)
    (hop : op ∈ clockOpSems) (w : WaitWorld) (clock_id : Nat) (abstime : Timespec)
    (herr : w.errCode = none) (hpast : abstime.toNs < w.clockNow clock_id) :
    (op w clock_id abstime).status = ETIMEDOUT ∧
    (op w clock_id abstime).returnClockTime = w.clockNow clock_id := by
  rw [clockOpSems_eq_model op hop]
  have hmax : max (w.clockNow clock_id) abstime.toNs = w.clockNow clock_id :=
    max_eq_left (le_of_lt hpast)
  rcases hs : w.satisfiedAt clock_id with _ | t
  · simp [clockWaitModel, herr, hs, hmax]
  · have hle : ¬ max t (w.clockNow clock_id) ≤ abstime.toNs := by
      rw [max_le_iff]
      rintro ⟨-, h2⟩
      exact absurd hpast (not_lt.mpr h2)
    simp [clockWaitModel, herr, hs, hle, hmax]

/-- Witness for C3: a valid call at clock reading 100 with deadline 5 in
the past returns the timeout code immediately. -/
theorem C3_past_deadline_times_out_witness :
    (pthread_mutex_clocklock_sem ⟨fun _ => 100, fun _ => none, none⟩ 0 ⟨0, 5⟩).status = ETIMEDOUT ∧
    (pthread_mutex_clocklock_sem ⟨fun _ => 100, fun _ => none, none⟩ 0 ⟨0, 5⟩).returnClockTime = 100 :=
  C3_past_deadline_times_out pthread_mutex_clocklock_sem
    (by simp [clockOpSems]) ⟨fun _ => 100, fun _ => none, none⟩ 0 ⟨0, 5⟩
    rfl (by norm_num [Timespec.toNs])

/-- C4: a valid call blocks the invoking thread until the condition is
satisfied or the deadline on the selected clock elapses: it returns no
earlier than the call instant and no later than the deadline (or at once
when the deadline is already past); when the condition is satisfiable in
that window it returns zero at the satisfaction instant, and otherwise it
returns the timeout indication once the deadline has elapsed. -/
theorem C4_blocks_until_satisfied_or_deadline (op : WaitWorld → Nat → Timespec → WaitResult)
    (hop : op ∈ clockOpSems) (w : WaitWorld) (clock_id : Nat) (abstime : Timespec)
    (herr : w.errCode = none) :
    w.clockNow clock_id ≤ (op w clock_id abstime).returnClockTime ∧
    (op w clock_id abstime).returnClockTime ≤ max (w.clockNow clock_id) abstime.toNs ∧
    (satisfiedWithin w clock_id abstime.toNs →
      (op w clock_id abstime).status = 0 ∧
      ∃ t, w.satisfiedAt clock_id = some t ∧
        (op w clock_id abstime).returnClockTime = max t (w.clockNow clock_id)) ∧
    (¬ satisfiedWithin w clock_id abstime.toNs →
      (op w clock_id abstime).status = ETIMEDOUT ∧
      (op w clock_id abstime).returnClockTime = max (w.clockNow clock_id) abstime.toNs) := by
  rw [clockOpSems_eq_model op hop]
  rcases hs : w.satisfiedAt clock_id with _ | t
  · refine ⟨?_, ?_, ?_, ?_⟩
    · simp [clockWaitModel, herr, hs]
    · simp [clockWaitModel, herr, hs]
    · rintro ⟨t, ht, -⟩
      rw [hs] at ht
      cases ht
    · intro _
      simp [clockWaitModel, herr, hs]
  · by_cases hle : max t (w.clockNow clock_id) ≤ abstime.toNs
    · refine ⟨?_, ?_, ?_, ?_⟩
      · simp [clockWaitModel, herr, hs, hle]
      · simp only [clockWaitModel, herr, hs, hle, if_true]
        exact le_trans hle (le_max_right _ _)
      · intro _
        refine ⟨by simp [clockWaitModel, herr, hs, hle], t, rfl, ?_⟩
        simp [clockWaitModel, herr, hs, hle]
      · intro hns
        exact absurd ⟨t, hs, hle⟩ hns
    · refine ⟨?_, ?_, ?_, ?_⟩
      · simp [clockWaitModel, herr, hs, hle]
      · simp [clockWaitModel, herr, hs, hle]
      · rintro ⟨t2, ht2, hle2⟩
        rw [hs] at ht2
        injection ht2 with ht2
        subst ht2
        exact absurd hle2 hle
      · intro _
        simp [clockWaitModel, herr, hs, hle]

/-- Witness for C4: a valid call satisfied at instant 7 against a deadline
of 50 returns zero at instant 7. -/
theorem C4_blocks_until_satisfied_or_deadline_witness :
    (pthread_rwlock_clockwrlock_sem ⟨fun _ => 2, fun _ => some 7, none⟩ 1 ⟨0, 50⟩).status = 0 ∧
    ∃ t, (⟨fun _ => 2, fun _ => some 7, none⟩ : WaitWorld).satisfiedAt 1 = some t ∧
      (pthread_rwlock_clockwrlock_sem ⟨fun _ => 2, fun _ => some 7, none⟩ 1 ⟨0, 50⟩).returnClockTime = max t 2 :=
  (C4_blocks_until_satisfied_or_deadline pthread_rwlock_clockwrlock_sem
      (by simp [clockOpSems]) ⟨fun _ => 2, fun _ => some 7, none⟩ 1 ⟨0, 50⟩ rfl).2.2.1
    ⟨7, rfl, by norm_num [Timespec.toNs]⟩

/-- C5: each of the four operations coincides with the spec-worded standard
POSIX timed-wait semantics when the selected clock is CLOCK_REALTIME, and
its outcome depends only on the state observed through the selected clock
and the platform error channel: the clock-selection parameter is the only
addition, and the locking discipline embodied in the rest of the world is
untouched. -/
theorem C5_only_adds_clock_selection (op : WaitWorld → Nat → Timespec → WaitResult)
    (hop : op ∈ clockOpSems) :
    (∀ w abstime, op w CLOCK_REALTIME abstime = posix_timedwait_sem w abstime) ∧
    (∀ w w2 clock_id abstime,
      w.clockNow clock_id = w2.clockNow clock_id →
      w.satisfiedAt clock_id = w2.satisfiedAt clock_id →
      w.errCode = w2.errCode →
      op w clock_id abstime = op w2 clock_id abstime) := by
  rw [clockOpSems_eq_model op hop]
  refine ⟨fun w abstime => rfl, fun w w2 clock_id abstime h1 h2 h3 => ?_⟩
  unfold clockWaitModel
  rw [h1, h2, h3]

/-- Witness for C5: the condition-variable wait at CLOCK_REALTIME in a
concrete world equals the POSIX reference semantics there. -/
theorem C5_only_adds_clock_selection_witness :
    pthread_cond_clockwait_sem ⟨fun _ => 1, fun _ => some 3, none⟩ CLOCK_REALTIME ⟨0, 9⟩ =
      posix_timedwait_sem ⟨fun _ => 1, fun _ => some 3, none⟩ ⟨0, 9⟩ :=
  (C5_only_adds_clock_selection pthread_cond_clockwait_sem
      (by simp [clockOpSems])).1 ⟨fun _ => 1, fun _ => some 3, none⟩ ⟨0, 9⟩

/-- C6: the artifact performs no translation or recovery: since the header
contributes no definition of any of the four names, a caller of any of them
receives exactly the status the platform thread library produced, whatever
that library and whatever interposition a definition would have made. -/
theorem C6_no_status_translation (cpp : Bool) (interposed platform : String → Nat)
    (n : String) (hn : n ∈ clockOpNames) :
    callerStatus (headerItems cpp) interposed platform n = platform n := by
  have hdef : definedFuns (headerItems cpp) = [] := by cases cpp <;> decide
  simp [callerStatus, hdef]

/-- Witness for C6: with a platform library answering 7 and a would-be
interposer answering 1, the caller of pthread_cond_clockwait receives 7. -/
theorem C6_no_status_translation_witness :
    callerStatus (headerItems true) (fun _ => 1) (fun _ => 7) "pthread_cond_clockwait" = 7 :=
  C6_no_status_translation true (fun _ => 1) (fun _ => 7)
    "pthread_cond_clockwait" (by decide)

end PthreadClockCompat
